import Mathlib

/-!
# Verification of the SOOMFON macro-pad core (shallow embedding)

This development embeds, in Lean, the core data model and operations of the
soomfon-plugin repository (Rust sources under `src-tauri/src`):

* the packet codec (`hid/packets.rs`): `parse_ack_packet`,
  `build_image_bat_packet`, `build_image_data_packet`, `build_stp_packet`;
* the raw-event classifier (`hid/types.rs`): `RawEvent::parse`;
* the connection manager state machine (`hid/manager.rs`):
  `connect` / `initialize` / `disconnect`, with environment-chosen outcomes
  for the fallible USB steps;
* the action engine (`actions/engine.rs`): `execute`, `cancel`,
  `record_execution`, the capped history and the shared cancellation token;
* the event binder (`actions/event_binder.rs`): `get_action_for_event`;
* the high-level image upload (`hid/protocol.rs`): `set_button_image`.

Bytes are modelled as `Nat` (with explicit `% 256` / `% 65536` / `% 2^32`
where Rust casts truncate); byte buffers as `List Nat`; fallible operations
return `Except`/`Option`; the heap cell behind the `Arc<AtomicBool>` of the
cancellation token is modelled as a store `Nat → Bool` indexed by cell id,
so that token clones (which share the cell id) observably share one flag.
-/

namespace Soomfon

/-! ## Byte-level constants (hid/types.rs) -/

/-- `CRT_PACKET_SIZE` (hid/types.rs): outbound command packets are 1024 bytes. -/
def CRT_PACKET_SIZE : Nat := 1024

/-! ## Raw events and device events (hid/types.rs) -/

/-- `RawEvent` (hid/types.rs): event id byte and state byte of an ACK packet. -/
structure RawEvent where
  event_id : Nat
  state : Nat
  deriving Repr, DecidableEq

/-- `ButtonEventType` (hid/types.rs). -/
inductive ButtonEventType where
  | press
  | release
  | longPress
  deriving Repr, DecidableEq

/-- `EncoderEventType` (hid/types.rs). -/
inductive EncoderEventType where
  | rotateCW
  | rotateCCW
  | press
  | release
  | longPress
  deriving Repr, DecidableEq

/-- `ButtonType` (hid/types.rs): Lcd buttons have displays, Physical do not. -/
inductive ButtonType where
  | lcd
  | physical
  deriving Repr, DecidableEq

/-- `EncoderType` (hid/types.rs). -/
inductive EncoderType where
  | main
  | side1
  | side2
  deriving Repr, DecidableEq

/-- `DeviceEvent` (hid/types.rs): semantic event after classification. -/
inductive DeviceEvent where
  | button (index : Nat) (button_type : ButtonType) (event_type : ButtonEventType)
  | encoder (encoder_type : EncoderType) (event_type : EncoderEventType)
  deriving Repr, DecidableEq

/-! ## ACK packet parser (hid/packets.rs, `parse_ack_packet`) -/

/-- The `b"ACK"` header constant (`ACK_HEADER` in hid/packets.rs). -/
def ACK_HEADER : List Nat := [65, 67, 75]

/-- The `b"OK"` signature constant (`ACK_OK` in hid/packets.rs). -/
def ACK_OK : List Nat := [79, 75]

/-- `parse_ack_packet` (hid/packets.rs lines 170-196), byte for byte:
length `< 11` check, `data[0..3] == b"ACK"`, `data[5..7] == b"OK"`,
discard `event_id == 0`, otherwise return `event_id = data[9]`,
`state = data[10]`. -/
def parse_ack_packet (data : List Nat) : Option RawEvent :=
  if data.length < 11 then
    none
  else if data.take 3 ≠ ACK_HEADER then
    none
  else if (data.drop 5).take 2 ≠ ACK_OK then
    none
  else
    let event_id := data.getD 9 0
    let state := data.getD 10 0
    if event_id = 0 then
      none
    else
      some { event_id := event_id, state := state }

end Soomfon

namespace Soomfon

/-- C3 helper: the exact failure condition of `parse_ack_packet` named by the
claim (short buffer, wrong "ACK" header, wrong "OK" signature, or event id 0). -/
def ackRejected (data : List Nat) : Prop :=
  data.length < 11 ∨ data.take 3 ≠ ACK_HEADER ∨ (data.drop 5).take 2 ≠ ACK_OK ∨
    data.getD 9 0 = 0

instance (data : List Nat) : Decidable (ackRejected data) := by
  unfold ackRejected
  infer_instance

end Soomfon

namespace Soomfon

/-- C3: `parse_ack_packet` returns `None` exactly when the buffer is shorter
than 11 bytes, bytes `[0..3)` are not `"ACK"`, bytes `[5..7)` are not `"OK"`,
or byte 9 is `0x00`; in every other case it returns `Some` raw event with
`event_id = data[9]` and `state = data[10]`. -/
theorem parse_ack_packet_characterization (data : List Nat) :
    parse_ack_packet data =
      if ackRejected data then none
      else some { event_id := data.getD 9 0, state := data.getD 10 0 } := by
  unfold parse_ack_packet ackRejected
  by_cases h1 : data.length < 11
  · simp [h1]
  · by_cases h2 : data.take 3 = ACK_HEADER
    · by_cases h3 : (data.drop 5).take 2 = ACK_OK
      · by_cases h4 : data.getD 9 0 = 0
        · simp [h1, h2, h3, h4]
        · simp [h1, h2, h3, h4]
      · simp [h1, h2, h3]
    · simp [h1, h2]

/-! ## Raw-event classifier (hid/types.rs, `RawEvent::parse`, lines 242-360)

The Rust method first computes `is_press = state == PRESS` and then branches
only on `event_id`.  `parseCore` is that branch structure (the checks appear
in the source's order: LCD range, the three small buttons, the main encoder,
side encoder 1, side encoder 2, fallthrough `None`); `RawEvent.parse` wires
in the `is_press` computation. -/

/-- Branch structure of `RawEvent::parse` after `is_press` has been computed.
Constants come from the `lcd_buttons` / `small_buttons` / `main_encoder` /
`side_encoder_1` / `side_encoder_2` modules of hid/types.rs. -/
def parseCore (event_id : Nat) (is_press : Bool) : Option DeviceEvent :=
  -- LCD buttons: (BUTTON_1..=BUTTON_6).contains(event_id), index = id - BUTTON_1
  if 1 ≤ event_id ∧ event_id ≤ 6 then
    some (.button (event_id - 1) .lcd (if is_press then .press else .release))
  -- small buttons: 0x25, 0x30, 0x31 mapped to indices 0, 1, 2
  else if event_id = 0x25 then
    some (.button 0 .physical (if is_press then .press else .release))
  else if event_id = 0x30 then
    some (.button 1 .physical (if is_press then .press else .release))
  else if event_id = 0x31 then
    some (.button 2 .physical (if is_press then .press else .release))
  -- main encoder: ROTATE_CCW = 0x50, ROTATE_CW = 0x51, PUSH = 0x35
  else if event_id = 0x50 then
    some (.encoder .main .rotateCCW)
  else if event_id = 0x51 then
    some (.encoder .main .rotateCW)
  else if event_id = 0x35 then
    some (.encoder .main (if is_press then .press else .release))
  -- side encoder 1: ROTATE_CCW = 0x90, ROTATE_CW = 0x91, PUSH = 0x33
  else if event_id = 0x90 then
    some (.encoder .side1 .rotateCCW)
  else if event_id = 0x91 then
    some (.encoder .side1 .rotateCW)
  else if event_id = 0x33 then
    some (.encoder .side1 (if is_press then .press else .release))
  -- side encoder 2: ROTATE_CCW = 0x60, ROTATE_CW = 0x61, PUSH = 0x34
  else if event_id = 0x60 then
    some (.encoder .side2 .rotateCCW)
  else if event_id = 0x61 then
    some (.encoder .side2 .rotateCW)
  else if event_id = 0x34 then
    some (.encoder .side2 (if is_press then .press else .release))
  else
    none

/-- `RawEvent::parse` (hid/types.rs): `let is_press = self.state == PRESS`
followed by the `event_id` branches of `parseCore`. -/
def RawEvent.parse (r : RawEvent) : Option DeviceEvent :=
  parseCore r.event_id (r.state == 1)

/-- The classification table exactly as claim C4 states it (one row per listed
event id, `None` for every other id); written independently of the source's
control flow so the theorem compares source against claim. -/
def classifyTable (event_id state : Nat) : Option DeviceEvent :=
  let pr : ButtonEventType := if state = 1 then .press else .release
  let epr : EncoderEventType := if state = 1 then .press else .release
  if 1 ≤ event_id ∧ event_id ≤ 6 then some (.button (event_id - 1) .lcd pr)
  else if event_id = 0x25 then some (.button 0 .physical pr)
  else if event_id = 0x30 then some (.button 1 .physical pr)
  else if event_id = 0x31 then some (.button 2 .physical pr)
  else if event_id = 0x50 then some (.encoder .main .rotateCCW)
  else if event_id = 0x51 then some (.encoder .main .rotateCW)
  else if event_id = 0x90 then some (.encoder .side1 .rotateCCW)
  else if event_id = 0x91 then some (.encoder .side1 .rotateCW)
  else if event_id = 0x60 then some (.encoder .side2 .rotateCCW)
  else if event_id = 0x61 then some (.encoder .side2 .rotateCW)
  else if event_id = 0x35 then some (.encoder .main epr)
  else if event_id = 0x33 then some (.encoder .side1 epr)
  else if event_id = 0x34 then some (.encoder .side2 epr)
  else none

/-- `true` exactly on classified events carrying a LongPress trigger. -/
def mentionsLongPress : Option DeviceEvent → Bool
  | some (.button _ _ .longPress) => true
  | some (.encoder _ .longPress) => true
  | _ => false

/-- Every branch condition of both classifiers is below 0x92, so both return
`none` above that bound. -/
theorem parseCore_high (event_id : Nat) (h : 146 ≤ event_id) (b : Bool) :
    parseCore event_id b = none := by
  unfold parseCore
  repeat rw [if_neg (by omega)]

theorem classifyTable_high (event_id state : Nat) (h : 146 ≤ event_id) :
    classifyTable event_id state = none := by
  unfold classifyTable
  repeat rw [if_neg (by omega)]

theorem parseCore_eq_table_low :
    ∀ event_id < 146, ∀ b : Bool,
      parseCore event_id b = classifyTable event_id (if b then 1 else 0) ∧
        mentionsLongPress (parseCore event_id b) = false := by
  decide

/-- C4: `RawEvent::parse` implements exactly the claim's classification table
(LCD buttons 0x01-0x06 with index `event_id - 1`, physical buttons
0x25/0x30/0x31, rotations 0x50/0x51, 0x90/0x91, 0x60/0x61 ignoring the state
byte, encoder pushes 0x35/0x33/0x34, everything else `None`), and no input
ever yields a LongPress trigger. -/
theorem rawEvent_parse_eq_classifyTable (event_id state : Nat) :
    RawEvent.parse { event_id := event_id, state := state } =
        classifyTable event_id state ∧
      mentionsLongPress
        (RawEvent.parse { event_id := event_id, state := state }) = false := by
  have hsb : ((if state = 1 then (1 : Nat) else 0) = 1) = (state = 1) := by
    by_cases h : state = 1 <;> simp [h]
  by_cases hid : event_id < 146
  · have := parseCore_eq_table_low event_id hid (state == 1)
    unfold RawEvent.parse
    rcases this with ⟨h1, h2⟩
    refine ⟨?_, h2⟩
    rw [h1]
    by_cases hs : state = 1 <;> simp [hs, classifyTable]
  · unfold RawEvent.parse
    rw [parseCore_high event_id (by omega), classifyTable_high event_id state (by omega)]
    simp [mentionsLongPress]

/-! ## Action data model (actions/types.rs)

The ten configuration records carry payload data that the engine and the
binder treat as opaque (they only clone and dispatch on the tag), so
`serde_json::Value` fields are modelled by an opaque stand-in and
`HashMap<String, String>` by an association list. -/

/-- Opaque stand-in for `serde_json::Value`; no embedded operation inspects
these payloads. -/
def JsonValue := String
deriving Repr, DecidableEq

/-- `MediaActionType` (actions/types.rs). -/
inductive MediaActionType where
  | playPause | next | previous | volumeUp | volumeDown | mute | stop
  deriving Repr, DecidableEq

/-- `ScriptType` (actions/types.rs). -/
inductive ScriptType where
  | powerShell | bash | cmd | file
  deriving Repr, DecidableEq

/-- `HttpMethod` (actions/types.rs). -/
inductive HttpMethod where
  | get | post | put | delete | patch
  deriving Repr, DecidableEq

/-- `SystemActionType` (actions/types.rs). -/
inductive SystemActionType where
  | switchDesktopLeft | switchDesktopRight | showDesktop | lockScreen
  | screenshot | startMenu | taskView | sleep | hibernate | openUrl
  deriving Repr, DecidableEq

/-- `HomeAssistantOperationType` (actions/types.rs). -/
inductive HomeAssistantOperationType where
  | toggle | turnOn | turnOff | setBrightness | runScript | triggerAutomation
  | custom | callService | fireEvent
  deriving Repr, DecidableEq

/-- `NodeRedOperationType` (actions/types.rs). -/
inductive NodeRedOperationType where
  | triggerFlow | sendEvent | custom
  deriving Repr, DecidableEq

/-- `KeyboardAction` (actions/types.rs). -/
structure KeyboardAction where
  id : Option String := none
  name : Option String := none
  icon : Option String := none
  enabled : Option Bool := none
  keys : String
  modifiers : List String := []
  hold_duration : Option Nat := none
  deriving Repr, DecidableEq

/-- `MediaAction` (actions/types.rs). -/
structure MediaAction where
  id : Option String := none
  name : Option String := none
  icon : Option String := none
  enabled : Option Bool := none
  action : MediaActionType
  volume_amount : Option Nat := none
  deriving Repr, DecidableEq

/-- `LaunchAction` (actions/types.rs). -/
structure LaunchAction where
  id : Option String := none
  name : Option String := none
  icon : Option String := none
  enabled : Option Bool := none
  path : String
  args : List String := []
  working_directory : Option String := none
  use_shell : Option Bool := none
  deriving Repr, DecidableEq

/-- `ScriptAction` (actions/types.rs). -/
structure ScriptAction where
  id : Option String := none
  name : Option String := none
  icon : Option String := none
  enabled : Option Bool := none
  script_type : ScriptType
  script : Option String := none
  content : Option String := none
  script_path : Option String := none
  timeout : Option Nat := none
  timeout_ms : Option Nat := none
  deriving Repr, DecidableEq

/-- `HttpAction` (actions/types.rs). -/
structure HttpAction where
  id : Option String := none
  name : Option String := none
  icon : Option String := none
  enabled : Option Bool := none
  method : HttpMethod
  url : String
  headers : List (String × String) := []
  body_type : Option String := none
  body : Option JsonValue := none
  timeout : Option Nat := none
  timeout_ms : Option Nat := none
  deriving Repr, DecidableEq

/-- `SystemAction` (actions/types.rs). -/
structure SystemAction where
  id : Option String := none
  name : Option String := none
  icon : Option String := none
  enabled : Option Bool := none
  action : SystemActionType
  deriving Repr, DecidableEq

/-- `TextAction` (actions/types.rs). -/
structure TextAction where
  id : Option String := none
  name : Option String := none
  icon : Option String := none
  enabled : Option Bool := none
  text : String
  type_delay : Option Nat := none
  delay_ms : Option Nat := none
  deriving Repr, DecidableEq

/-- `ProfileAction` (actions/types.rs). -/
structure ProfileAction where
  id : Option String := none
  name : Option String := none
  icon : Option String := none
  enabled : Option Bool := none
  profile_id : Option String := none
  profile_name : Option String := none
  deriving Repr, DecidableEq

/-- `HomeAssistantCustomService` (actions/types.rs). -/
structure HomeAssistantCustomService where
  domain : String
  service : String
  data : Option JsonValue := none
  deriving Repr, DecidableEq

/-- `HomeAssistantAction` (actions/types.rs). -/
structure HomeAssistantAction where
  id : Option String := none
  name : Option String := none
  icon : Option String := none
  enabled : Option Bool := none
  operation : HomeAssistantOperationType
  entity_id : String
  brightness : Option Nat := none
  custom_service : Option HomeAssistantCustomService := none
  service : Option String := none
  service_data : Option JsonValue := none
  deriving Repr, DecidableEq

/-- `NodeRedAction` (actions/types.rs). -/
structure NodeRedAction where
  id : Option String := none
  name : Option String := none
  icon : Option String := none
  enabled : Option Bool := none
  operation : NodeRedOperationType
  endpoint : String
  event_name : Option String := none
  payload : Option JsonValue := none
  flow_id : Option String := none
  deriving Repr, DecidableEq

/-- `Action` (actions/types.rs lines 377-390): the tagged union of action
kinds, exactly the ten variants of the Rust enum. -/
inductive Action where
  | keyboard (config : KeyboardAction)
  | media (config : MediaAction)
  | launch (config : LaunchAction)
  | script (config : ScriptAction)
  | http (config : HttpAction)
  | system (config : SystemAction)
  | text (config : TextAction)
  | profile (config : ProfileAction)
  | homeAssistant (config : HomeAssistantAction)
  | nodeRed (config : NodeRedAction)
  deriving Repr, DecidableEq

/-- `ActionResult` (actions/types.rs). -/
structure ActionResult where
  success : Bool
  message : Option String := none
  error : Option String := none
  duration_ms : Nat
  deriving Repr, DecidableEq

/-- `ActionResult::success` (actions/types.rs). -/
def ActionResult.mkSuccess (duration_ms : Nat) : ActionResult :=
  { success := true, message := none, error := none, duration_ms := duration_ms }

/-- `ActionResult::failure` (actions/types.rs). -/
def ActionResult.failure (error : String) (duration_ms : Nat) : ActionResult :=
  { success := false, message := none, error := some error, duration_ms := duration_ms }

/-! ## Action engine (actions/engine.rs)

`CancellationToken` wraps an `Arc<AtomicBool>`: a clonable handle onto one
shared boolean cell.  The heap of such cells is modelled as a store
`Nat → Bool` carried by the engine; a token is the id of its cell, and
cloning a token copies the id (shared ownership of the same cell), exactly
as `#[derive(Clone)]` on `Arc` shares the allocation. -/

/-- `CancellationToken` (actions/engine.rs lines 27-53): the id of the shared
`AtomicBool` cell the token points at. -/
abbrev CancellationToken := Nat

/-- `CancellationToken::clone` (derived `Clone`): the clone points at the very
same shared cell. -/
def CancellationToken.clone (t : CancellationToken) : CancellationToken := t

/-- `CancellationToken::is_cancelled` relative to the store of cells. -/
def isCancelled (cells : Nat → Bool) (t : CancellationToken) : Bool := cells t

/-- `HistoryEntry` (actions/engine.rs lines 14-20). -/
structure HistoryEntry where
  action_type : String
  success : Bool
  duration_ms : Nat
  timestamp : Nat
  error : Option String
  deriving Repr, DecidableEq

/-- `ActionEngine` state (actions/engine.rs lines 62-71), plus the store of
`AtomicBool` cells backing cancellation tokens. -/
structure ActionEngine where
  history : List HistoryEntry
  max_history : Nat
  is_executing : Bool
  /-- Shared `AtomicBool` heap: value held by each cell id. -/
  cells : Nat → Bool
  /-- Cell id of the engine's `cancellation_token`. -/
  token_cell : Nat

/-- `ActionEngine::new` (actions/engine.rs lines 75-82): empty history,
`max_history = 100`, guard clear, fresh un-cancelled token. -/
def ActionEngine.new : ActionEngine :=
  { history := []
    max_history := 100
    is_executing := false
    cells := fun _ => false
    token_cell := 0 }

/-- `ActionEngine::get_cancellation_token`: a clone of the engine's token —
the same cell id. -/
def ActionEngine.get_cancellation_token (e : ActionEngine) : CancellationToken :=
  e.token_cell

/-- `ActionEngine::get_action_type_name` (actions/engine.rs lines 215-229) for
the ten variants the `Action` enum defines.  (The Rust match there carries an
eleventh arm `Action::Workspace(_) => "workspace"`, which names a variant the
`Action` enum of actions/types.rs does not have; see the C6 artifacts below.) -/
def get_action_type_name : Action → String
  | .keyboard _ => "keyboard"
  | .media _ => "media"
  | .launch _ => "launch"
  | .script _ => "script"
  | .http _ => "http"
  | .system _ => "system"
  | .text _ => "text"
  | .profile _ => "profile"
  | .homeAssistant _ => "homeAssistant"
  | .nodeRed _ => "nodeRed"

/-- The injected handler capability set: one executor per action kind
(`super::handlers::{keyboard, media, ...}::execute`).  Handler bodies are
external I/O; each is modelled as an arbitrary function to `ActionResult`. -/
structure Handlers where
  keyboard : KeyboardAction → ActionResult
  media : MediaAction → ActionResult
  launch : LaunchAction → ActionResult
  script : ScriptAction → ActionResult
  http : HttpAction → ActionResult
  system : SystemAction → ActionResult
  text : TextAction → ActionResult
  profile : ProfileAction → ActionResult
  homeAssistant : HomeAssistantAction → ActionResult
  nodeRed : NodeRedAction → ActionResult

/-- The dispatch match of `ActionEngine::execute` (actions/engine.rs lines
103-137): route the tagged action to the matching handler. -/
def dispatch (h : Handlers) : Action → ActionResult
  | .keyboard config => h.keyboard config
  | .media config => h.media config
  | .launch config => h.launch config
  | .script config => h.script config
  | .http config => h.http config
  | .system config => h.system config
  | .text config => h.text config
  | .profile config => h.profile config
  | .homeAssistant config => h.homeAssistant config
  | .nodeRed config => h.nodeRed config

/-- The history append step shared by `execute` and `record_execution`
(actions/engine.rs lines 153-156 and 199-202): `push`, then `remove(0)` when
the length exceeds `max_history`. -/
def ActionEngine.pushEntry (e : ActionEngine) (entry : HistoryEntry) : ActionEngine :=
  let history := e.history ++ [entry]
  if history.length > e.max_history then
    { e with history := history.drop 1 }
  else
    { e with history := history }

/-- `ActionEngine::execute` (actions/engine.rs lines 93-164).  The wall-clock
duration and timestamp are environment inputs (`Instant::now` /
`SystemTime::now`); the handler call is `dispatch handlers action`. -/
def ActionEngine.execute (e : ActionEngine) (action : Action) (handlers : Handlers)
    (duration timestamp : Nat) : ActionEngine × ActionResult :=
  if e.is_executing then
    (e, ActionResult.failure "Another action is currently executing" 0)
  else
    let e1 : ActionEngine :=
      { e with is_executing := true
               -- cancellation_token.reset(): store false into the shared cell
               cells := fun i => if i = e.token_cell then false else e.cells i }
    let result := dispatch handlers action
    let entry : HistoryEntry :=
      { action_type := get_action_type_name action
        success := result.success
        duration_ms := duration
        timestamp := timestamp
        error := result.error }
    let e2 := e1.pushEntry entry
    let e3 : ActionEngine := { e2 with is_executing := false }
    (e3, { result with duration_ms := duration })

/-- `ActionEngine::cancel` (actions/engine.rs lines 174-179): set the shared
cancellation cell, unconditionally clear the single-flight guard. -/
def ActionEngine.cancel (e : ActionEngine) : ActionEngine :=
  { e with cells := fun i => if i = e.token_cell then true else e.cells i
           is_executing := false }

/-- `ActionEngine::is_executing` accessor (actions/engine.rs lines 182-184). -/
def ActionEngine.isExecutingFlag (e : ActionEngine) : Bool := e.is_executing

/-- `ActionEngine::record_execution` (actions/engine.rs lines 187-203):
guard-independent history append of an externally computed result. -/
def ActionEngine.record_execution (e : ActionEngine) (action : Action)
    (result : ActionResult) (timestamp : Nat) : ActionEngine :=
  e.pushEntry
    { action_type := get_action_type_name action
      success := result.success
      duration_ms := result.duration_ms
      timestamp := timestamp
      error := result.error }

/-- `ActionEngine::clear_history` (actions/engine.rs lines 211-213). -/
def ActionEngine.clear_history (e : ActionEngine) : ActionEngine :=
  { e with history := [] }

/-- C1: when the single-flight guard is set, `execute` returns the failure
result `success = false`, `error = "Another action is currently executing"`
immediately, the engine state (history included) is returned unchanged, and
no handler is invoked: the outcome is the same for every handler set,
duration and timestamp. -/
theorem engine_execute_guarded_rejects (e : ActionEngine) (a : Action)
    (h h' : Handlers) (d d' t t' : Nat) (hex : e.is_executing = true) :
    e.execute a h d t = (e, ActionResult.failure "Another action is currently executing" 0) ∧
      (e.execute a h d t).2.success = false ∧
      (e.execute a h d t).2.error = some "Another action is currently executing" ∧
      (e.execute a h d t).1.history = e.history ∧
      e.execute a h d t = e.execute a h' d' t' := by
  unfold ActionEngine.execute
  rw [if_pos hex, if_pos hex]
  exact ⟨rfl, rfl, rfl, rfl, rfl⟩

/-- C1 witness: a concrete engine whose guard is set rejects a concrete
keyboard action without touching its (empty) history, for two different
handler sets. -/
theorem engine_execute_guarded_rejects_witness :
    let e : ActionEngine := { ActionEngine.new with is_executing := true }
    let a : Action := .keyboard { keys := "A" }
    let ok : Handlers :=
      { keyboard := fun _ => ActionResult.mkSuccess 1
        media := fun _ => ActionResult.mkSuccess 1
        launch := fun _ => ActionResult.mkSuccess 1
        script := fun _ => ActionResult.mkSuccess 1
        http := fun _ => ActionResult.mkSuccess 1
        system := fun _ => ActionResult.mkSuccess 1
        text := fun _ => ActionResult.mkSuccess 1
        profile := fun _ => ActionResult.mkSuccess 1
        homeAssistant := fun _ => ActionResult.mkSuccess 1
        nodeRed := fun _ => ActionResult.mkSuccess 1 }
    let bad : Handlers :=
      { keyboard := fun _ => ActionResult.failure "boom" 7
        media := fun _ => ActionResult.failure "boom" 7
        launch := fun _ => ActionResult.failure "boom" 7
        script := fun _ => ActionResult.failure "boom" 7
        http := fun _ => ActionResult.failure "boom" 7
        system := fun _ => ActionResult.failure "boom" 7
        text := fun _ => ActionResult.failure "boom" 7
        profile := fun _ => ActionResult.failure "boom" 7
        homeAssistant := fun _ => ActionResult.failure "boom" 7
        nodeRed := fun _ => ActionResult.failure "boom" 7 }
    e.execute a ok 3 5 = (e, ActionResult.failure "Another action is currently executing" 0) ∧
      (e.execute a ok 3 5).2.success = false ∧
      (e.execute a ok 3 5).2.error = some "Another action is currently executing" ∧
      (e.execute a ok 3 5).1.history = e.history ∧
      e.execute a ok 3 5 = e.execute a bad 11 13 := by
  intro e a ok bad
  exact engine_execute_guarded_rejects e a ok bad 3 11 5 13 rfl

/-- C7: after `cancel()`, every clone of the engine's cancellation token taken
before the call (all clones carry the same cell id, hence observe the same
shared flag) reports `is_cancelled = true` — and so does any further clone of
it — and the single-flight guard is false, whatever the prior engine state. -/
theorem engine_cancel_sets_token_clears_guard (e : ActionEngine)
    (t : CancellationToken) (hclone : t = e.get_cancellation_token) :
    isCancelled e.cancel.cells t = true ∧
      isCancelled e.cancel.cells t.clone = true ∧
      e.cancel.is_executing = false := by
  subst hclone
  unfold ActionEngine.cancel isCancelled ActionEngine.get_cancellation_token
    CancellationToken.clone
  simp

/-- C7 witness: cancelling a fresh engine (no action executing) flips the
previously obtained token clone to cancelled and leaves the guard clear. -/
theorem engine_cancel_sets_token_clears_guard_witness :
    isCancelled ActionEngine.new.cancel.cells
        ActionEngine.new.get_cancellation_token = true ∧
      isCancelled ActionEngine.new.cancel.cells
        ActionEngine.new.get_cancellation_token.clone = true ∧
      ActionEngine.new.cancel.is_executing = false :=
  engine_cancel_sets_token_clears_guard ActionEngine.new
    ActionEngine.new.get_cancellation_token rfl

/-! ## Bounded history (claim C2)

Both appenders (`execute` and `record_execution`) run the same
push-then-evict step.  `pushH` is that step on bare entry lists;
`EngineStep` ranges over the two appending operations. -/

/-- The push-then-evict step on history lists with capacity 100 (the
`max_history` of `ActionEngine::new`). -/
def pushH (l : List HistoryEntry) (x : HistoryEntry) : List HistoryEntry :=
  if (l ++ [x]).length > 100 then (l ++ [x]).drop 1 else l ++ [x]

/-- One appending engine operation: an `execute` call (with its injected
handler set, duration and timestamp) or a `record_execution` call. -/
inductive EngineStep where
  | exec (action : Action) (handlers : Handlers) (duration timestamp : Nat)
  | record (action : Action) (result : ActionResult) (timestamp : Nat)

/-- Apply one engine operation to the engine state. -/
def stepEngine (e : ActionEngine) : EngineStep → ActionEngine
  | .exec a h d t => (e.execute a h d t).1
  | .record a r t => e.record_execution a r t

/-- Run a sequence of engine operations. -/
def runSteps (e : ActionEngine) (steps : List EngineStep) : ActionEngine :=
  steps.foldl stepEngine e

/-- The history entry a step appends (when the guard does not reject it). -/
def stepEntry : EngineStep → HistoryEntry
  | .exec a h d t =>
      { action_type := get_action_type_name a
        success := (dispatch h a).success
        duration_ms := d
        timestamp := t
        error := (dispatch h a).error }
  | .record a r t =>
      { action_type := get_action_type_name a
        success := r.success
        duration_ms := r.duration_ms
        timestamp := t
        error := r.error }

theorem pushEntry_history (e : ActionEngine) (x : HistoryEntry)
    (hmax : e.max_history = 100) : (e.pushEntry x).history = pushH e.history x := by
  simp only [ActionEngine.pushEntry, pushH, hmax]
  by_cases h : (e.history ++ [x]).length > 100
  · rw [if_pos h, if_pos h]
  · rw [if_neg h, if_neg h]

theorem pushEntry_max_history (e : ActionEngine) (x : HistoryEntry) :
    (e.pushEntry x).max_history = e.max_history := by
  simp only [ActionEngine.pushEntry]
  split <;> rfl

theorem pushEntry_is_executing (e : ActionEngine) (x : HistoryEntry) :
    (e.pushEntry x).is_executing = e.is_executing := by
  simp only [ActionEngine.pushEntry]
  split <;> rfl

/-- With the guard clear and capacity 100, each step appends exactly its entry
through the push-then-evict discipline and keeps the guard clear. -/
theorem stepEngine_spec (e : ActionEngine) (s : EngineStep)
    (hex : e.is_executing = false) (hmax : e.max_history = 100) :
    (stepEngine e s).history = pushH e.history (stepEntry s) ∧
      (stepEngine e s).is_executing = false ∧
      (stepEngine e s).max_history = 100 := by
  cases s with
  | exec a h d t =>
      simp only [stepEngine, ActionEngine.execute, stepEntry]
      rw [if_neg (by simp [hex])]
      refine ⟨?_, rfl, ?_⟩
      · show (ActionEngine.pushEntry _ _).history = _
        rw [pushEntry_history _ _ (by simpa using hmax)]
      · show (ActionEngine.pushEntry _ _).max_history = 100
        rw [pushEntry_max_history]
        simpa using hmax
  | record a r t =>
      simp only [stepEngine, ActionEngine.record_execution, stepEntry]
      refine ⟨pushEntry_history _ _ hmax, ?_, ?_⟩
      · rw [pushEntry_is_executing]
        exact hex
      · rw [pushEntry_max_history]
        exact hmax

/-- Folding `pushH` keeps the last 100 entries of everything appended. -/
theorem foldl_pushH (xs : List HistoryEntry) :
    ∀ acc : List HistoryEntry, acc.length ≤ 100 →
      xs.foldl pushH acc = (acc ++ xs).drop (acc.length + xs.length - 100) := by
  induction xs with
  | nil =>
      intro acc hacc
      simp [Nat.sub_eq_zero_of_le hacc]
  | cons x xs ih =>
      intro acc hacc
      rw [List.foldl_cons]
      by_cases hlen : (acc ++ [x]).length > 100
      · have hacc100 : acc.length = 100 := by
          simp at hlen
          omega
        have hstep : pushH acc x = (acc ++ [x]).drop 1 := by
          unfold pushH
          rw [if_pos hlen]
        have hlen' : ((acc ++ [x]).drop 1).length = 100 := by
          simp
          omega
        rw [hstep, ih _ (le_of_eq hlen')]
        have hidx : ((acc ++ [x]).drop 1).length + xs.length - 100 = xs.length := by
          rw [hlen']
          omega
        rw [hidx]
        have hsplit : (acc ++ [x]).drop 1 ++ xs = (acc ++ x :: xs).drop 1 := by
          have hd := @List.drop_append_of_le_length _ (acc ++ [x]) xs 1 (by simp)
          rw [← hd, List.append_assoc, List.singleton_append]
        rw [hsplit, List.drop_drop]
        congr 1
        simp only [List.length_cons]
        omega
      · have hstep : pushH acc x = acc ++ [x] := by
          unfold pushH
          rw [if_neg hlen]
        have hlen' : (acc ++ [x]).length ≤ 100 := by
          omega
        rw [hstep, ih _ hlen', List.append_assoc, List.singleton_append]
        congr 1
        simp only [List.length_append, List.length_cons, List.length_nil]
        omega

theorem runSteps_history (steps : List EngineStep) :
    ∀ e : ActionEngine, e.is_executing = false → e.max_history = 100 →
      (runSteps e steps).history = (steps.map stepEntry).foldl pushH e.history ∧
        (runSteps e steps).is_executing = false ∧
        (runSteps e steps).max_history = 100 := by
  induction steps with
  | nil => intro e hex hmax; exact ⟨rfl, hex, hmax⟩
  | cons s steps ih =>
      intro e hex hmax
      obtain ⟨h1, h2, h3⟩ := stepEngine_spec e s hex hmax
      obtain ⟨g1, g2, g3⟩ := ih (stepEngine e s) h2 h3
      refine ⟨?_, g2, g3⟩
      show (runSteps (stepEngine e s) steps).history = _
      rw [g1, h1]
      rfl

/-- C2: the history is a bounded FIFO of capacity 100 preserved by every
appending operation (`execute` and `record_execution`): starting from a fresh
engine, after any sequence of operations the history is exactly the last
`min(n, 100)` of the `n` appended entries, oldest evicted first; in
particular 105 sequential recordings leave 100 entries whose first entry is
the one appended by the 6th operation. -/
theorem engine_history_bounded_fifo (steps : List EngineStep) :
    (runSteps ActionEngine.new steps).history =
        (steps.map stepEntry).drop (steps.length - 100) ∧
      (runSteps ActionEngine.new steps).history.length = min steps.length 100 ∧
      (steps.length = 105 →
        (runSteps ActionEngine.new steps).history.length = 100 ∧
        (runSteps ActionEngine.new steps).history.head? =
          (steps.map stepEntry)[5]?) := by
  obtain ⟨h1, -, -⟩ := runSteps_history steps ActionEngine.new rfl rfl
  have hfold := foldl_pushH (steps.map stepEntry) [] (by simp)
  have hhist : (runSteps ActionEngine.new steps).history =
      (steps.map stepEntry).drop (steps.length - 100) := by
    rw [h1]
    show (steps.map stepEntry).foldl pushH [] = _
    rw [hfold]
    simp
  refine ⟨hhist, ?_, ?_⟩
  · rw [hhist]
    simp [List.length_drop]
    omega
  · intro h105
    refine ⟨?_, ?_⟩
    · rw [hhist]
      simp [List.length_drop, h105]
    · rw [hhist, h105]
      show ((steps.map stepEntry).drop 5).head? = _
      rw [List.head?_drop]

/-- 105 sequential `record_execution` calls, the i-th recording a successful
result with duration i (mirroring the `test_history_enforces_max_limit` test
of actions/engine.rs). -/
def fifoWitnessSteps : List EngineStep :=
  (List.range 105).map fun i =>
    .record (.keyboard { keys := "A" }) (ActionResult.mkSuccess i) i

/-- C2 witness: recording 105 executions leaves exactly 100 entries, the
first being the entry of the 6th call. -/
theorem engine_history_bounded_fifo_witness :
    (runSteps ActionEngine.new fifoWitnessSteps).history.length = 100 ∧
      (runSteps ActionEngine.new fifoWitnessSteps).history.head? =
        (fifoWitnessSteps.map stepEntry)[5]? :=
  (engine_history_bounded_fifo fifoWitnessSteps).2.2 (by simp [fifoWitnessSteps])

/-! ## Profile configuration (config/types.rs) and event binder
(actions/event_binder.rs) -/

/-- `ButtonConfig` (config/types.rs). -/
structure ButtonConfig where
  index : Nat := 0
  label : Option String := none
  image : Option String := none
  action : Option Action := none
  long_press_action : Option Action := none
  shift_action : Option Action := none
  shift_long_press_action : Option Action := none
  deriving Repr, DecidableEq

/-- `EncoderConfig` (config/types.rs). -/
structure EncoderConfig where
  index : Nat := 0
  label : Option String := none
  press_action : Option Action := none
  long_press_action : Option Action := none
  clockwise_action : Option Action := none
  counter_clockwise_action : Option Action := none
  shift_press_action : Option Action := none
  shift_long_press_action : Option Action := none
  shift_clockwise_action : Option Action := none
  shift_counter_clockwise_action : Option Action := none
  deriving Repr, DecidableEq

/-- `Workspace` (config/types.rs). -/
structure Workspace where
  id : String
  name : String
  buttons : List ButtonConfig := []
  encoders : List EncoderConfig := []
  deriving Repr, DecidableEq

/-- `Profile` (config/types.rs).  The binder reads only `name`, `buttons` and
`encoders` (the legacy flat lists), never the workspaces. -/
structure Profile where
  id : String
  name : String
  description : Option String := none
  workspaces : List Workspace := []
  active_workspace_index : Nat := 0
  created_at : Nat
  updated_at : Nat
  buttons : List ButtonConfig := []
  encoders : List EncoderConfig := []
  deriving Repr, DecidableEq

/-- `EventBinder` (actions/event_binder.rs): zero or one bound profile. -/
structure EventBinder where
  profile : Option Profile
  deriving Repr, DecidableEq

/-- `EventBinder::new`. -/
def EventBinder.new : EventBinder := { profile := none }

/-- `EventBinder::bind_profile`: replaces the bound profile. -/
def EventBinder.bind_profile (_b : EventBinder) (p : Profile) : EventBinder :=
  { profile := some p }

/-- `EventBinder::unbind`. -/
def EventBinder.unbind (_b : EventBinder) : EventBinder := { profile := none }

/-- The encoder-to-index mapping of `get_action_for_event`
(actions/event_binder.rs lines 50-54): Main = 0, Side1 = 1, Side2 = 2. -/
def encoderIndex : EncoderType → Nat
  | .main => 0
  | .side1 => 1
  | .side2 => 2

/-- `EventBinder::get_action_for_event` (actions/event_binder.rs lines
34-68): look up the config matching the event's index in the bound profile,
then clone the `Option<Action>` field for the event's trigger (Release has no
field and yields `None`; `button_type` is informational and unused).  The
Rust method takes `&self` and `&DeviceEvent` — it mutates neither the binder
nor the profile — so its embedding is a pure function of (binder, event). -/
def EventBinder.get_action_for_event (b : EventBinder) (event : DeviceEvent) :
    Option Action :=
  match b.profile with
  | none => none
  | some profile =>
    match event with
    | .button index _ event_type =>
      match profile.buttons.find? (fun bc => bc.index == index) with
      | none => none
      | some button_config =>
        match event_type with
        | .press => button_config.action
        | .release => none -- Release not supported as direct field
        | .longPress => button_config.long_press_action
    | .encoder encoder_type event_type =>
      match profile.encoders.find? (fun ec => ec.index == encoderIndex encoder_type) with
      | none => none
      | some encoder_config =>
        match event_type with
        | .rotateCW => encoder_config.clockwise_action
        | .rotateCCW => encoder_config.counter_clockwise_action
        | .press => encoder_config.press_action
        | .release => none -- Release not supported as direct field
        | .longPress => encoder_config.long_press_action

/-! Spec-side decomposition of claim C8: the configuration matching the
event's control index, and the Action slot that configuration registers for
the event's trigger. -/

/-- Claim C8's "matching button/encoder configuration for the event's control
index". -/
def findControl (p : Profile) : DeviceEvent → Option (ButtonConfig ⊕ EncoderConfig)
  | .button index _ _ => (p.buttons.find? (fun bc => bc.index == index)).map Sum.inl
  | .encoder et _ => (p.encoders.find? (fun ec => ec.index == encoderIndex et)).map Sum.inr

/-- Claim C8's "Action registered for the event's trigger" (a `ButtonConfig`
has slots for Press and LongPress only; an `EncoderConfig` for RotateCW,
RotateCCW, Press and LongPress; neither has a Release slot). -/
def configuredAction : ButtonConfig ⊕ EncoderConfig → DeviceEvent → Option Action
  | .inl bc, .button _ _ t =>
      match t with
      | .press => bc.action
      | .release => none
      | .longPress => bc.long_press_action
  | .inr ec, .encoder _ t =>
      match t with
      | .rotateCW => ec.clockwise_action
      | .rotateCCW => ec.counter_clockwise_action
      | .press => ec.press_action
      | .release => none
      | .longPress => ec.long_press_action
  | _, _ => none

/-- C8: `get_action_for_event` returns exactly the configured Action reached
by profile → control-index lookup → trigger slot, and in particular returns
`None` precisely when no profile is bound, no configuration matches the
event's control index, or the matching configuration registers no Action for
the event's trigger. -/
theorem binder_resolve_characterization (b : EventBinder) (ev : DeviceEvent) :
    b.get_action_for_event ev =
        (b.profile.bind fun p => (findControl p ev).bind fun c => configuredAction c ev) ∧
      (b.get_action_for_event ev = none ↔
        b.profile = none ∨
          (∃ p, b.profile = some p ∧ findControl p ev = none) ∨
          (∃ p c, b.profile = some p ∧ findControl p ev = some c ∧
            configuredAction c ev = none)) := by
  have heq : b.get_action_for_event ev =
      (b.profile.bind fun p => (findControl p ev).bind fun c => configuredAction c ev) := by
    cases hb : b.profile with
    | none => simp [EventBinder.get_action_for_event, hb]
    | some p =>
      cases ev with
      | button index bt t =>
        cases hf : p.buttons.find? (fun bc => bc.index == index) with
        | none =>
            simp [EventBinder.get_action_for_event, findControl, hb, hf]
        | some bc =>
            cases t <;>
              simp [EventBinder.get_action_for_event, findControl,
                configuredAction, hb, hf]
      | encoder et t =>
        cases hf : p.encoders.find? (fun ec => ec.index == encoderIndex et) with
        | none =>
            simp [EventBinder.get_action_for_event, findControl, hb, hf]
        | some ec =>
            cases t <;>
              simp [EventBinder.get_action_for_event, findControl,
                configuredAction, hb, hf]
  refine ⟨heq, ?_⟩
  rw [heq]
  cases hb : b.profile with
  | none => simp
  | some p =>
    cases hf : findControl p ev with
    | none => simp [hf]
    | some c =>
      cases c with
      | inl bc =>
        cases hc : configuredAction (Sum.inl bc) ev with
        | none => simp [hf, hc]
        | some a => simp [hf, hc]
      | inr ec =>
        cases hc : configuredAction (Sum.inr ec) ev with
        | none => simp [hf, hc]
        | some a => simp [hf, hc]

/-! ## Connection manager state machine (hid/manager.rs)

The USB environment decides which fallible step of an operation fails; an
operation is a pure transition on the manager's observable state
(`state`, `device_info`, `handle`, `initialized`) paired with its result.
String payloads of errors are dropped: only the error kind matters here. -/

/-- `ConnectionState` (hid/types.rs lines 137-149). -/
inductive ConnectionState where
  | disconnected
  | connecting
  | connected
  | initialized
  | error
  deriving Repr, DecidableEq, Fintype

/-- The kinds of `HidError` (hid/types.rs lines 368-401), payload strings
dropped. -/
inductive HidErrorKind where
  | deviceNotFound
  | notConnected
  | notInitialized
  | openFailed
  | claimFailed
  | writeFailed
  | readFailed
  | invalidData
  | connectionLost
  | timeout
  | usbError
  deriving Repr, DecidableEq, Fintype

/-- Observable `HidManager` state (hid/manager.rs lines 17-30): connection
state, presence of `device_info` / `context` / `handle`, and the
`initialized` flag (`auto_reconnect` is never read by these operations). -/
structure HidManager where
  state : ConnectionState
  hasDeviceInfo : Bool
  hasContext : Bool
  hasHandle : Bool
  initialized : Bool
  deriving Repr, DecidableEq, Fintype

/-- `HidManager::new` (hid/manager.rs lines 34-43). -/
def HidManager.new : HidManager :=
  { state := .disconnected
    hasDeviceInfo := false
    hasContext := false
    hasHandle := false
    initialized := false }

/-- `HidManager::is_connected` (hid/manager.rs lines 82-84). -/
def HidManager.is_connected (m : HidManager) : Bool :=
  m.state == .connected || m.state == .initialized

/-- Environment outcome of one `connect()` call: which fallible USB step
fails, if any (hid/manager.rs lines 150-225: context creation, device
enumeration/find, descriptor read, open, kernel-driver detach / interface
claim). -/
inductive ConnectOutcome where
  | ok
  | contextFail
  | deviceNotFound
  | descriptorFail
  | openFail
  | claimFail
  deriving Repr, DecidableEq, Fintype

/-- `HidManager::connect` (hid/manager.rs lines 150-225).  Already-connected
managers with cached device info return it unchanged; otherwise the state is
set to `Connecting` first, then each fallible step returns its error via `?`
— leaving the state as it is at that point, namely `Connecting` — and on
success the manager stores context, handle and info and becomes `Connected`
with `initialized = false`. -/
def HidManager.connect (m : HidManager) (o : ConnectOutcome) :
    HidManager × Except HidErrorKind Unit :=
  if m.is_connected && m.hasDeviceInfo then
    (m, .ok ())
  else
    let m1 : HidManager := { m with state := .connecting }
    match o with
    | .contextFail => (m1, .error .openFailed)
    | .deviceNotFound => (m1, .error .deviceNotFound)
    | .descriptorFail => (m1, .error .openFailed)
    | .openFail => (m1, .error .openFailed)
    | .claimFail => (m1, .error .claimFailed)
    | .ok =>
        ({ state := .connected
           hasDeviceInfo := true
           hasContext := true
           hasHandle := true
           initialized := false }, .ok ())

/-- Environment outcome of one `initialize()` call: whether any of the four
`send_command` writes of the init sequence fails (the optional firmware
feature report never fails the call). -/
inductive InitOutcome where
  | ok
  | writeFail
  deriving Repr, DecidableEq, Fintype

/-- `HidManager::initialize` (hid/manager.rs lines 236-305): requires a
connected manager with a handle; any failed write returns `WriteFailed` via
`?` with the state untouched; on success sets `initialized` and the
`Initialized` state. -/
def HidManager.initDevice (m : HidManager) (o : InitOutcome) :
    HidManager × Except HidErrorKind Unit :=
  if !m.is_connected then
    (m, .error .notConnected)
  else if !m.hasHandle then
    (m, .error .notConnected)
  else
    match o with
    | .writeFail => (m, .error .writeFailed)
    | .ok => ({ m with initialized := true, state := .initialized }, .ok ())

/-- `HidManager::disconnect` (hid/manager.rs lines 308-328): best-effort
shutdown (errors swallowed), release the interface, clear all local state —
never fails, from any state. -/
def HidManager.disconnect (_m : HidManager) : HidManager :=
  { state := .disconnected
    hasDeviceInfo := false
    hasContext := false
    hasHandle := false
    initialized := false }

/-- `HidManager::take_polling_handle` (hid/manager.rs lines 443-447). -/
def HidManager.take_polling_handle (m : HidManager) :
    HidManager × Except HidErrorKind Unit :=
  if m.hasHandle then ({ m with hasHandle := false }, .ok ())
  else (m, .error .notConnected)

/-- Environment outcome of one `reopen_for_commands()` call. -/
inductive ReopenOutcome where
  | ok
  | deviceNotFound
  | openFail
  | claimFail
  deriving Repr, DecidableEq, Fintype

/-- `HidManager::reopen_for_commands` (hid/manager.rs lines 452-491):
no-op with a handle, `NotConnected` without a context, otherwise
re-enumerate/open/claim under the environment's outcome. -/
def HidManager.reopen_for_commands (m : HidManager) (o : ReopenOutcome) :
    HidManager × Except HidErrorKind Unit :=
  if m.hasHandle then
    (m, .ok ())
  else if !m.hasContext then
    (m, .error .notConnected)
  else
    match o with
    | .deviceNotFound => (m, .error .deviceNotFound)
    | .openFail => (m, .error .openFailed)
    | .claimFail => (m, .error .claimFailed)
    | .ok => ({ m with hasHandle := true }, .ok ())

/-- One manager operation together with its environment outcome. -/
inductive ManagerOp where
  | connect (o : ConnectOutcome)
  | initDevice (o : InitOutcome)
  | disconnect
  | takePollingHandle
  | reopenForCommands (o : ReopenOutcome)
  deriving Repr, DecidableEq, Fintype

/-- Apply one operation, discarding the result. -/
def stepManager (m : HidManager) : ManagerOp → HidManager
  | .connect o => (m.connect o).1
  | .initDevice o => (HidManager.initDevice m o).1
  | .disconnect => m.disconnect
  | .takePollingHandle => (m.take_polling_handle).1
  | .reopenForCommands o => (m.reopen_for_commands o).1

/-- Run a sequence of manager operations from a given state. -/
def runManager (m : HidManager) (ops : List ManagerOp) : HidManager :=
  ops.foldl stepManager m

deriving instance DecidableEq for Except

/-- No single operation, whatever its outcome, moves a manager whose state is
not `Error` into the `Error` state: no code path of hid/manager.rs ever
assigns `ConnectionState::Error`. -/
theorem stepManager_no_error (m : HidManager) (op : ManagerOp)
    (h : m.state ≠ ConnectionState.error) :
    (stepManager m op).state ≠ ConnectionState.error := by
  revert m op
  decide

/-- C5 counterexample: a failed `connect()` from the initial state (the open
step fails) returns `OpenFailed` but leaves the connection state at
`Connecting`, not `Error`, contradicting the claim that any operation failure
leaves the state equal to `Error`. -/
theorem manager_error_state_counterexample :
    (HidManager.new.connect ConnectOutcome.openFail).2 =
        Except.error HidErrorKind.openFailed ∧
      (HidManager.new.connect ConnectOutcome.openFail).1.state =
        ConnectionState.connecting ∧
      (HidManager.new.connect ConnectOutcome.openFail).1.state ≠
        ConnectionState.error := by
  decide

/-- C5 (amended): operation failures return a typed error but never set the
state to `Error` — a failed `connect` leaves the state at `Connecting`, a
failed `initialize` leaves the manager unchanged — the `Error` state is
unreachable from the initial state under any operation sequence, and
`disconnect()` from any state returns the state to `Disconnected`. -/
theorem manager_error_unreachable :
    (∀ (m : HidManager) (o : ConnectOutcome) (e : HidErrorKind),
        (m.connect o).2 = Except.error e →
          (m.connect o).1.state = ConnectionState.connecting) ∧
      (∀ (m : HidManager) (o : InitOutcome) (e : HidErrorKind),
        (HidManager.initDevice m o).2 = Except.error e → (HidManager.initDevice m o).1 = m) ∧
      (∀ m : HidManager, m.disconnect.state = ConnectionState.disconnected) ∧
      (∀ ops : List ManagerOp,
        (runManager HidManager.new ops).state ≠ ConnectionState.error) := by
  refine ⟨by decide, by decide, by decide, ?_⟩
  have key : ∀ (ops : List ManagerOp) (m : HidManager),
      m.state ≠ ConnectionState.error →
        (runManager m ops).state ≠ ConnectionState.error := by
    intro ops
    induction ops with
    | nil => intro m h; exact h
    | cons op ops ih =>
        intro m h
        exact ih (stepManager m op) (stepManager_no_error m op h)
  intro ops
  exact key ops HidManager.new (by decide)

/-- C5 witness: at concrete inputs — a failed open during `connect` from the
initial state lands in `Connecting`; a failed init write on a freshly
connected manager changes nothing; `disconnect` returns to `Disconnected`;
a concrete operation sequence ends outside `Error`. -/
theorem manager_error_unreachable_witness :
    (HidManager.new.connect ConnectOutcome.openFail).1.state =
        ConnectionState.connecting ∧
      (HidManager.initDevice (HidManager.new.connect ConnectOutcome.ok).1
          InitOutcome.writeFail).1 = (HidManager.new.connect ConnectOutcome.ok).1 ∧
      HidManager.new.disconnect.state = ConnectionState.disconnected ∧
      (runManager HidManager.new
          [ManagerOp.connect ConnectOutcome.ok,
           ManagerOp.initDevice InitOutcome.writeFail,
           ManagerOp.disconnect]).state ≠ ConnectionState.error := by
  obtain ⟨h1, h2, h3, h4⟩ := manager_error_unreachable
  exact ⟨h1 HidManager.new ConnectOutcome.openFail HidErrorKind.openFailed (by decide),
    h2 (HidManager.new.connect ConnectOutcome.ok).1 InitOutcome.writeFail
      HidErrorKind.writeFailed (by decide),
    h3 HidManager.new,
    h4 [ManagerOp.connect ConnectOutcome.ok, ManagerOp.initDevice InitOutcome.writeFail,
      ManagerOp.disconnect]⟩

/-! ## Outbound packet builders (hid/packets.rs) and the chunked image upload
(hid/protocol.rs) -/

/-- `copy_from_slice` into a byte buffer at an offset: write the bytes one
after another. -/
def writeBytes : List Nat → Nat → List Nat → List Nat
  | p, _, [] => p
  | p, i, v :: vs => writeBytes (p.set i v) (i + 1) vs

/-- `build_stp_packet` (hid/packets.rs lines 84-91): 1024 zero bytes, `"CRT"`
at offset 0, `"STP"` at offset 5. -/
def build_stp_packet : List Nat :=
  let packet := List.replicate CRT_PACKET_SIZE 0
  let packet := writeBytes packet 0 [67, 82, 84] -- b"CRT"
  let packet := writeBytes packet 5 [83, 84, 80] -- b"STP"
  packet

/-- `build_image_bat_packet` (hid/packets.rs lines 221-242): `"CRT"` header,
`"BAT"` command, `let size = (data_length as u16).min(u16::MAX)` — the
`as u16` cast truncates modulo 2^16 and the subsequent `.min` can therefore
never bite — size big-endian at bytes 10-11, `button_index + 1` (u8
arithmetic) at byte 12. -/
def build_image_bat_packet (button_index data_length : Nat) : List Nat :=
  let packet := List.replicate CRT_PACKET_SIZE 0
  let packet := writeBytes packet 0 [67, 82, 84] -- b"CRT"
  let packet := writeBytes packet 5 [66, 65, 84] -- b"BAT"
  let size := min (data_length % 65536) 65535    -- (data_length as u16).min(u16::MAX)
  let packet := packet.set 10 (size / 256 % 256) -- (size >> 8) as u8
  let packet := packet.set 11 (size % 256)       -- (size & 0xFF) as u8
  let packet := packet.set 12 ((button_index + 1) % 256) -- buttons 1-indexed
  packet

/-- `build_image_data_packet` (hid/packets.rs lines 252-260): copy up to 1024
data bytes into a zeroed 1024-byte packet. -/
def build_image_data_packet (data : List Nat) : List Nat :=
  let packet := List.replicate CRT_PACKET_SIZE 0
  writeBytes packet 0 (data.take (min data.length CRT_PACKET_SIZE))

/-- The chunking `while` loop of `set_button_image` (hid/protocol.rs lines
128-138): one data packet per 1024-byte slice of the JPEG. -/
def chunkPackets (data : List Nat) : List (List Nat) :=
  if h : data = [] then []
  else
    build_image_data_packet (data.take CRT_PACKET_SIZE) ::
      chunkPackets (data.drop CRT_PACKET_SIZE)
termination_by data.length
decreasing_by
  simp only [List.length_drop]
  have hne : data.length ≠ 0 := fun hlen => h (List.eq_nil_of_length_eq_zero hlen)
  simp only [CRT_PACKET_SIZE]
  omega

/-- `SoomfonProtocol::set_button_image` (hid/protocol.rs lines 95-151) as the
sequence of packets it sends when every USB write succeeds: validation
(button index in 0..=5, at least 3 bytes, JPEG magic `FF D8 FF`), then the
BAT header announcing `jpeg_data.len() as u32`, the data chunks, and the
committing STP packet.  No size-related validation exists. -/
def set_button_image (button_index : Nat) (jpeg_data : List Nat) :
    Except HidErrorKind (List (List Nat)) :=
  if button_index > 5 then
    .error .invalidData
  else if jpeg_data.length < 3 then
    .error .invalidData
  else if ¬(jpeg_data.getD 0 0 = 0xFF ∧ jpeg_data.getD 1 0 = 0xD8 ∧
      jpeg_data.getD 2 0 = 0xFF) then
    .error .invalidData
  else
    .ok (build_image_bat_packet button_index (jpeg_data.length % 2 ^ 32) ::
      (chunkPackets jpeg_data ++ [build_stp_packet]))

/-- The four interesting bytes of a BAT packet, for arbitrary button index
and data length. -/
theorem image_bat_packet_bytes (b n : Nat) :
    (build_image_bat_packet b n).length = 1024 ∧
      (build_image_bat_packet b n)[10]? = some (n % 65536 / 256) ∧
      (build_image_bat_packet b n)[11]? = some (n % 65536 % 256) ∧
      (build_image_bat_packet b n)[12]? = some ((b + 1) % 256) := by
  have hmod : n % 65536 < 65536 := Nat.mod_lt _ (by norm_num)
  have hmin : min (n % 65536) 65535 = n % 65536 := by omega
  simp only [build_image_bat_packet, writeBytes, CRT_PACKET_SIZE, hmin]
  refine ⟨by simp only [List.length_set, List.length_replicate], ?_, ?_, ?_⟩
  · rw [List.getElem?_set_ne (by norm_num), List.getElem?_set_ne (by norm_num),
      List.getElem?_set_self
        (by simp only [List.length_set, List.length_replicate]; norm_num)]
    have : n % 65536 / 256 % 256 = n % 65536 / 256 := by omega
    rw [this]
  · rw [List.getElem?_set_ne (by norm_num),
      List.getElem?_set_self
        (by simp only [List.length_set, List.length_replicate]; norm_num)]
  · rw [List.getElem?_set_self
        (by simp only [List.length_set, List.length_replicate]; norm_num)]

/-- C9: for every button index 0..=5 and payload length up to 65535,
`build_image_bat_packet` (the upload header builder) produces a 1024-byte
packet carrying the payload length big-endian at bytes 10 and 11 and
`button_index + 1` at byte 12. -/
theorem build_image_bat_packet_header (b n : Nat) (hb : b ≤ 5) (hn : n ≤ 65535) :
    (build_image_bat_packet b n).length = 1024 ∧
      (build_image_bat_packet b n)[10]? = some (n / 256) ∧
      (build_image_bat_packet b n)[11]? = some (n % 256) ∧
      (build_image_bat_packet b n)[12]? = some (b + 1) := by
  obtain ⟨h1, h2, h3, h4⟩ := image_bat_packet_bytes b n
  have e1 : n % 65536 = n := Nat.mod_eq_of_lt (by omega)
  have e2 : (b + 1) % 256 = b + 1 := Nat.mod_eq_of_lt (by omega)
  rw [e1] at h2 h3
  rw [e2] at h4
  exact ⟨h1, h2, h3, h4⟩

/-- C9 witness: `build_image_bat_packet 0 1234` encodes size bytes
`[0x04, 0xD2]` and button byte `0x01`; `build_image_bat_packet 5 100`
encodes button byte `0x06`. -/
theorem build_image_bat_packet_header_witness :
    (build_image_bat_packet 0 1234).length = 1024 ∧
      (build_image_bat_packet 0 1234)[10]? = some 0x04 ∧
      (build_image_bat_packet 0 1234)[11]? = some 0xD2 ∧
      (build_image_bat_packet 0 1234)[12]? = some 0x01 ∧
      (build_image_bat_packet 5 100)[12]? = some 0x06 := by
  obtain ⟨h1, h2, h3, h4⟩ :=
    build_image_bat_packet_header 0 1234 (by decide) (by decide)
  obtain ⟨-, -, -, g4⟩ :=
    build_image_bat_packet_header 5 100 (by decide) (by decide)
  exact ⟨h1, h2, h3, h4, g4⟩

/-- C10: for any 32-bit data length, the BAT header announces
`data_length mod 2^16`: the `as u16` cast truncates before the `.min(u16::MAX)`
is applied (which is therefore a no-op), so for a valid JPEG payload larger
than 65535 bytes the announced size silently wraps — it differs from the true
length — and `set_button_image` reports no error, sending the wrapped header
anyway. -/
theorem image_size_truncation (b n : Nat) (jpeg : List Nat) (hb : b ≤ 5)
    (hn : n < 2 ^ 32) (hlen : jpeg.length = n) (hbig : 65535 < n)
    (hm0 : jpeg.getD 0 0 = 0xFF) (hm1 : jpeg.getD 1 0 = 0xD8)
    (hm2 : jpeg.getD 2 0 = 0xFF) :
    min (n % 65536) 65535 = n % 65536 ∧
      (build_image_bat_packet b n)[10]? = some (n % 65536 / 256) ∧
      (build_image_bat_packet b n)[11]? = some (n % 65536 % 256) ∧
      n % 65536 ≠ n ∧
      set_button_image b jpeg =
        .ok (build_image_bat_packet b n ::
          (chunkPackets jpeg ++ [build_stp_packet])) := by
  obtain ⟨-, h2, h3, -⟩ := image_bat_packet_bytes b n
  refine ⟨by omega, h2, h3, by omega, ?_⟩
  unfold set_button_image
  rw [if_neg (by omega), if_neg (by omega),
    if_neg (not_not_intro ⟨hm0, hm1, hm2⟩), hlen, Nat.mod_eq_of_lt hn]

/-- A valid 65536-byte JPEG payload (magic bytes then padding). -/
def oversizedJpeg : List Nat := 255 :: 216 :: 255 :: List.replicate 65533 0

/-- C10 witness: a 65536-byte JPEG is accepted without error and its BAT
header announces 65536 mod 2^16 = 0. -/
theorem image_size_truncation_witness :
    min (65536 % 65536) 65535 = 65536 % 65536 ∧
      (build_image_bat_packet 0 65536)[10]? = some (65536 % 65536 / 256) ∧
      (build_image_bat_packet 0 65536)[11]? = some (65536 % 65536 % 256) ∧
      65536 % 65536 ≠ 65536 ∧
      set_button_image 0 oversizedJpeg =
        .ok (build_image_bat_packet 0 65536 ::
          (chunkPackets oversizedJpeg ++ [build_stp_packet])) :=
  image_size_truncation 0 65536 oversizedJpeg (by decide) (by norm_num)
    (by rw [oversizedJpeg, List.length_cons, List.length_cons, List.length_cons,
      List.length_replicate])
    (by norm_num) rfl rfl rfl

/-! ## The dispatch match of `ActionEngine::execute` versus the `Action` enum
(claim C6)

The `Action` enum of actions/types.rs declares exactly ten variants.  The
dispatch match of `ActionEngine::execute` (actions/engine.rs lines 103-137)
— and likewise `get_action_type_name` (lines 215-229) — carries an eleventh
arm, `Action::Workspace(config)`, naming a variant the enum does not define:
that arm cannot compile against the enum, so the file records both shapes as
transcribed variant/arm identifier lists and relates them to the `Action`
type embedded above. -/

/-- The variant identifiers of `enum Action` (actions/types.rs lines
377-390), in declaration order. -/
def actionVariants : List String :=
  ["Keyboard", "Media", "Launch", "Script", "Http", "System", "Text",
   "Profile", "HomeAssistant", "NodeRed"]

/-- The arm patterns `Action::<name>(config) => ...` of the `match action`
dispatch in `ActionEngine::execute` (actions/engine.rs lines 103-137),
transcribed in source order. -/
def engineExecuteMatchArms : List String :=
  ["Keyboard", "Media", "Launch", "Script", "Http", "System", "Text",
   "Profile", "HomeAssistant", "NodeRed", "Workspace"]

/-- The variant identifier of an `Action` value. -/
def actionVariantName : Action → String
  | .keyboard _ => "Keyboard"
  | .media _ => "Media"
  | .launch _ => "Launch"
  | .script _ => "Script"
  | .http _ => "Http"
  | .system _ => "System"
  | .text _ => "Text"
  | .profile _ => "Profile"
  | .homeAssistant _ => "HomeAssistant"
  | .nodeRed _ => "NodeRed"

/-- C6 evidence: the `Action` union has exactly ten kinds and every action
value falls under one of them, but the dispatch match of
`ActionEngine::execute` has eleven arms — the ten variant arms plus an extra
`Action::Workspace` arm that matches no variant of the `Action` enum (dead
code that cannot compile against the enum), contradicting "exactly one of
ten executor kinds, one match arm per kind". -/
theorem action_dispatch_workspace_arm_mismatch :
    actionVariants.length = 10 ∧
      engineExecuteMatchArms.length = 11 ∧
      engineExecuteMatchArms = actionVariants ++ ["Workspace"] ∧
      "Workspace" ∉ actionVariants ∧
      (∀ a : Action, actionVariantName a ∈ actionVariants) := by
  refine ⟨by decide, by decide, by decide, by decide, ?_⟩
  intro a
  cases a <;> simp [actionVariantName, actionVariants]

end Soomfon
